import Mathlib

/-!
Shallow embedding of the qp2p core (connection.rs, connection_handle.rs).

Pure control flow of the Rust functions is translated into Lean functions.
Asynchronous I/O steps (opening streams, writing frames, reading frames)
are passed in as explicit outcome parameters, so each Lean function
computes what the Rust function does given those outcomes.  The wire
message type and the error enums live in `wire_msg.rs` / `error.rs`,
which are not part of the sources here; they are modelled from the spec
(§3, §7) which lists their variants.
-/

/-- Application payload bytes (`bytes::Bytes`). -/
abbrev Bytes := List Nat

/-- Modelled from the spec: socket addresses (`std::net::SocketAddr`),
encoded as `family-tag || 4-or-16 bytes || u16 port` (§6.2). Only equality
matters for the claims. -/
structure SocketAddr where
  ip : List Nat
  port : Nat
deriving DecidableEq, Repr

/-- Modelled from the spec: the wire message enum of `wire_msg.rs`
(spec §3 "Wire message"). -/
inductive WireMsg where
  | UserMsg (msg : Bytes)
  | EndpointEchoReq
  | EndpointEchoResp (addr : SocketAddr)
  | EndpointVerificationReq (addr : SocketAddr)
  | EndpointVerificationResp (ok : Bool)
  | EndpointPseudoBiStreamReq (tok : Bytes)
  | EndpointPseudoBiStreamResp (tok : Bytes)
deriving DecidableEq, Repr

/-- Modelled from the spec: `SerializationError` kinds of `error.rs`
(spec §7). `UnexpectedMessage` records the offending message, if any. -/
inductive SerializationError where
  | UnexpectedEof
  | UnknownTag
  | MalformedAddress
  | UnexpectedMessage (msg : Option WireMsg)
deriving DecidableEq, Repr

/-- Mirrors `SerializationError::unexpected(&msg)`. -/
def SerializationError.unexpected (msg : Option WireMsg) : SerializationError :=
  SerializationError.UnexpectedMessage msg

/-- Modelled from the spec: `StreamError` of `error.rs` (spec §7). -/
inductive StreamError where
  | Stopped (code : Nat)
  | Reset (code : Nat)
  | UnknownStream
  | TransportError (code : Nat)
deriving DecidableEq, Repr

/-- Modelled from the spec: `ConnectionError` of `error.rs` (spec §7). -/
inductive ConnectionError where
  | Closed (isLocal : Bool) (code : Nat) (reason : Bytes)
  | TimedOut
  | LocallyClosed
  | Stopped
  | TransportError (code : Nat)
  | ApplicationClosed
deriving DecidableEq, Repr

/-- Modelled from the spec: `SendError` of `error.rs` (spec §7). -/
inductive SendError where
  | ConnectionLost (e : ConnectionError)
  | StreamLost (e : StreamError)
  | Serialization (e : SerializationError)
deriving DecidableEq, Repr

/-- Modelled from the spec: `RecvError` of `error.rs` (spec §7). -/
inductive RecvError where
  | ConnectionLost (e : ConnectionError)
  | StreamLost (e : StreamError)
  | Serialization (e : SerializationError)
deriving DecidableEq, Repr

/-- Modelled from the spec: `RpcError` of `error.rs` wraps send, receive
and timeout failures (spec §7); connection-level failures of the reverse
probe also convert into it (connection.rs `handle_endpoint_verification`). -/
inductive RpcError where
  | Connection (e : ConnectionError)
  | Send (e : SendError)
  | Recv (e : RecvError)
  | TimedOutErr
deriving DecidableEq, Repr

/-- Modelled from the spec: the two error classes of the `backoff` retry
combinator used by `RetryConfig::retry` (spec §4.2): permanent errors
surface immediately, transient errors are retried. -/
inductive BackoffError where
  | Permanent (e : SendError)
  | Transient (e : SendError)
deriving DecidableEq, Repr

/-- The error classification closure inside `Connection::send_with`
(connection.rs lines 121–128): `SendError::ConnectionLost(_)` becomes
`backoff::Error::Permanent`, every other send error becomes
`backoff::Error::Transient`. -/
def classify_send_error (e : SendError) : BackoffError :=
  match e with
  | SendError.ConnectionLost c => BackoffError.Permanent (SendError.ConnectionLost c)
  | other => BackoffError.Transient other

/-- Modelled from the spec: the backoff loop of `RetryConfig::retry`
(config.rs is not among the sources; spec §4.2).  `attempts i` is the
outcome of the i-th invocation of the operation (`none` = success).
`fuel` is the remaining retry budget induced by `max_elapsed_time`.
Returns the final outcome and the total number of attempts made. -/
def retryLoop (attempts : Nat → Option SendError) : Nat → Nat → Option SendError × Nat
  | 0, i =>
    match attempts i with
    | none => (none, i + 1)
    | some e =>
      match classify_send_error e with
      | BackoffError.Permanent p => (some p, i + 1)
      | BackoffError.Transient t => (some t, i + 1)
  | fuel + 1, i =>
    match attempts i with
    | none => (none, i + 1)
    | some e =>
      match classify_send_error e with
      | BackoffError.Permanent p => (some p, i + 1)
      | BackoffError.Transient _ => retryLoop attempts fuel (i + 1)

/-- `Connection::send_with` (connection.rs lines 109–137): the per-call
retry config takes precedence over the connection's default; with a
policy in effect the whole send is run under the backoff loop, without
one a single attempt is made and returned as-is.  Retry configs are
abstracted to their retry budget. -/
def Connection.send_with (defaultRetry : Option Nat) (callRetry : Option Nat)
    (attempts : Nat → Option SendError) : Option SendError × Nat :=
  match callRetry.orElse (fun _ => defaultRetry) with
  | some fuel => retryLoop attempts fuel 0
  | none => (attempts 0, 1)

/-- `Connection::send_uni` (connection.rs lines 208–223): open a
uni-stream, write one `UserMsg`, then `finish()`; a finish failure of the
shape `SendError::StreamLost(StreamError::Stopped(_))` is suppressed,
any other failure propagates. -/
def Connection.send_uni (openRes : Except ConnectionError Unit)
    (sendMsgRes : Except SendError Unit)
    (finishRes : Except SendError Unit) : Except SendError Unit :=
  match openRes with
  | Except.error e => Except.error (SendError.ConnectionLost e)
  | Except.ok _ =>
    match sendMsgRes with
    | Except.error e => Except.error e
    | Except.ok _ =>
      match finishRes with
      | Except.error (SendError.StreamLost (StreamError.Stopped _)) => Except.ok ()
      | Except.error e => Except.error e
      | Except.ok _ => Except.ok ()

/-- `ConnectionHandle::handle_error` (connection_handle.rs lines
100–106): returns the result unchanged and invokes `remove()` on the
pool remover exactly when the result is an error.  The boolean records
whether `remove()` was invoked. -/
def ConnectionHandle.handle_error (result : Option SendError) : Option SendError × Bool :=
  match result with
  | some e => (some e, true)
  | none => (none, false)

/-- `ConnectionHandle::send_with` (connection_handle.rs lines 80–88):
the inner `Connection::send_with` result routed through `handle_error`. -/
def ConnectionHandle.send_with (defaultRetry : Option Nat) (callRetry : Option Nat)
    (attempts : Nat → Option SendError) : Option SendError × Bool :=
  ConnectionHandle.handle_error (Connection.send_with defaultRetry callRetry attempts).1

/-- `ConnectionHandle::send` (connection_handle.rs lines 73–75): the
inner `Connection::send` (which is `send_with(msg, 0, None)`) routed
through `handle_error`. -/
def ConnectionHandle.send (defaultRetry : Option Nat)
    (attempts : Nat → Option SendError) : Option SendError × Bool :=
  ConnectionHandle.handle_error (Connection.send_with defaultRetry none attempts).1

/-- `Connection::close` (connection.rs lines 202–205): close the QUIC
connection with error code 0 and the given reason, defaulting to
`QP2P_CLOSED_CONNECTION`; `into_bytes` is UTF-8 encoding, which is
injective, so the reason is modelled as the string itself. -/
def QP2P_CLOSED_CONNECTION : String := "The connection was closed intentionally by qp2p."

/-- The (error-code, reason) pair passed to `quinn::Connection::close`. -/
def Connection.close (reason : Option String) : Nat × String :=
  (0, reason.getD QP2P_CLOSED_CONNECTION)

/-- One read from a QUIC recv-stream, as seen by
`WireMsg::read_from_stream`: an error, clean end-of-stream, or a frame.
A stream's contents are a list of such reads consumed in order; an
exhausted list reads as end-of-stream. -/
inductive FrameRead where
  | errF (e : RecvError)
  | eof
  | msg (w : WireMsg)
deriving DecidableEq, Repr

/-- One item placed on the bounded application queue
(`message_tx` in connection.rs): either a delivered
`(payload, recv_stream, maybe_send_stream)` tuple — abstracted to the
payload and whether a send half is attached — or an error. -/
inductive QueueEntry where
  | msgE (payload : Bytes) (hasSend : Bool)
  | errE (e : RecvError)
deriving DecidableEq, Repr

/-- The pending pseudo-bi-stream table
(`waiting_pseudo_bi_streams : HashMap<Bytes, mpsc::Sender<…>>`),
modelled as an association list from token to the identifier of the
waiting one-shot delivery slot.  `HashMap` keys are unique; `insert`
replaces any entry with the same key. -/
abbrev PendingTable := List (Bytes × Nat)

/-- `HashMap::insert`: the new binding replaces any previous binding of
the token. -/
def insertToken (tok : Bytes) (slot : Nat) (t : PendingTable) : PendingTable :=
  (tok, slot) :: t.filter (fun p => p.1 ≠ tok)

/-- `HashMap::get`: the slot waiting on `tok`, if any. -/
def lookupToken (tok : Bytes) (t : PendingTable) : Option Nat :=
  (t.find? (fun p => p.1 = tok)).map (fun p => p.2)

/-- `HashMap::remove`: drop the binding of `tok`. -/
def removeToken (tok : Bytes) (t : PendingTable) : PendingTable :=
  t.filter (fun p => p.1 ≠ tok)

/-- `consume_pseudo_resp_messages` (connection.rs lines 582–597): look
up the token; when a waiter is present, deliver the recv-stream to its
slot (`try_send`) and remove the entry; when absent, do nothing.
Returns the new table and the slot the stream was delivered to, if any.
Nothing is ever placed on the application queue by this handler. -/
def consume_pseudo_resp_messages (tok : Bytes) (t : PendingTable) :
    PendingTable × Option Nat :=
  match lookupToken tok t with
  | some slot => (removeToken tok t, some slot)
  | none => (t, none)

/-- The read loop of `consume_pseudo_req_messages` (connection.rs lines
552–577): read frames until the first `UserMsg`, which is enqueued with
the reverse send half attached; a read error or end-of-stream stops the
loop with nothing enqueued; any other frame is dropped and the loop
continues. -/
def pseudo_req_loop : List FrameRead → List QueueEntry
  | [] => []
  | FrameRead.errF _ :: _ => []
  | FrameRead.eof :: _ => []
  | FrameRead.msg (WireMsg.UserMsg m) :: _ => [QueueEntry.msgE m true]
  | FrameRead.msg _ :: rest => pseudo_req_loop rest

/-- The outcome of `consume_pseudo_req_messages`: the wire message the
handler attempted to write on the reverse uni-stream (if it got that
far), the entries it placed on the application queue, and its returned
error, if any. -/
structure PseudoReqOutcome where
  respWritten : Option WireMsg
  enqueued : List QueueEntry
  errored : Option SendError
deriving DecidableEq, Repr

/-- `consume_pseudo_req_messages` (connection.rs lines 529–580): open a
reverse outbound uni-stream, write `EndpointPseudoBiStreamResp(tok)` on
it, then run the read loop over the original recv-stream.  `openRes` and
`respSendRes` are the outcomes of the open and of the write. -/
def consume_pseudo_req_messages (tok : Bytes)
    (openRes : Except ConnectionError Unit)
    (respSendRes : Except SendError Unit)
    (frames : List FrameRead) : PseudoReqOutcome :=
  match openRes with
  | Except.error e => ⟨none, [], some (SendError.ConnectionLost e)⟩
  | Except.ok _ =>
    match respSendRes with
    | Except.error e => ⟨some (WireMsg.EndpointPseudoBiStreamResp tok), [], some e⟩
    | Except.ok _ =>
      ⟨some (WireMsg.EndpointPseudoBiStreamResp tok), pseudo_req_loop frames, none⟩

/-- One inbound uni-stream as consumed by `listen_on_uni_streams`: the
outcome of the first `read_from_stream`, the remaining reads (consumed
only on the pseudo-bi-request path), and the outcomes of the reverse
open and write used on that path. -/
structure UniStreamInput where
  firstRead : Except RecvError (Option WireMsg)
  restFrames : List FrameRead
  openRes : Except ConnectionError Unit
  respSendRes : Except SendError Unit

/-- The per-stream handler of `listen_on_uni_streams` (connection.rs
lines 449–499): branch on the first frame.  A decode error is enqueued;
clean end-of-stream enqueues nothing; `UserMsg` is enqueued without a
send half; pseudo-bi requests and responses go to their handlers (whose
errors are dropped with a trace); any other variant is enqueued as an
`UnexpectedMessage` error.  Returns the enqueued entries and the updated
pending table; the handler always completes, so the acceptor continues
with other streams. -/
def handle_uni_stream (s : UniStreamInput) (t : PendingTable) :
    List QueueEntry × PendingTable :=
  match s.firstRead with
  | Except.error e => ([QueueEntry.errE e], t)
  | Except.ok none => ([], t)
  | Except.ok (some (WireMsg.UserMsg m)) => ([QueueEntry.msgE m false], t)
  | Except.ok (some (WireMsg.EndpointPseudoBiStreamReq tok)) =>
    ((consume_pseudo_req_messages tok s.openRes s.respSendRes s.restFrames).enqueued, t)
  | Except.ok (some (WireMsg.EndpointPseudoBiStreamResp tok)) =>
    ([], (consume_pseudo_resp_messages tok t).1)
  | Except.ok (some m) =>
    ([QueueEntry.errE (RecvError.Serialization (SerializationError.unexpected (some m)))], t)

/-- `listen_on_uni_streams` (connection.rs lines 427–527) over a
sequence of inbound uni-streams: each stream is handled in turn (the
source fans out concurrently; the model serialises in arrival order) and
the acceptor keeps going after any handled stream.  Returns all queue
entries and the final pending table. -/
def listen_on_uni_streams : List UniStreamInput → PendingTable →
    List QueueEntry × PendingTable
  | [], t => ([], t)
  | s :: rest, t =>
    ((handle_uni_stream s t).1
       ++ (listen_on_uni_streams rest (handle_uni_stream s t).2).1,
     (listen_on_uni_streams rest (handle_uni_stream s t).2).2)

/-- How the `recv.recv().await` of `open_pseudo_bi` resolves once the
initial write has succeeded: either the matching
`EndpointPseudoBiStreamResp` is consumed and delivers the stream, or the
slot's sender is dropped (which in the source happens only once the
entry has left the table: the map entry is the only sender). -/
inductive PseudoResolution where
  | respDelivered
  | slotClosed
deriving DecidableEq, Repr

/-- `Connection::open_pseudo_bi` (connection.rs lines 167–195): insert
the fresh 32-byte token into the pending table, write
`EndpointPseudoBiStreamReq(token)` on a new uni-stream; if the write
fails return `ConnectionError::Stopped` — the token is NOT removed on
this path; otherwise await the slot: delivery yields the paired streams,
a closed slot yields `ConnectionError::Stopped`.  Returns the result and
the pending table at resolution time. -/
def open_pseudo_bi (tok : Bytes) (slot : Nat) (t : PendingTable)
    (sendRes : Except SendError Unit) (res : PseudoResolution) :
    Except ConnectionError Unit × PendingTable :=
  let t1 := insertToken tok slot t
  match sendRes with
  | Except.error _ => (Except.error ConnectionError.Stopped, t1)
  | Except.ok _ =>
    match res with
    | PseudoResolution.respDelivered =>
      let step := consume_pseudo_resp_messages tok t1
      match step.2 with
      | some _ => (Except.ok (), step.1)
      | none => (Except.error ConnectionError.Stopped, step.1)
    | PseudoResolution.slotClosed =>
      (Except.error ConnectionError.Stopped, removeToken tok t1)

/-- The four I/O steps of the reverse probe inside
`handle_endpoint_verification` (connection.rs lines 761–791): dial the
address, open a bi-stream, write `EndpointEchoReq`, read one frame. -/
structure VerifyProbeInput where
  connectRes : Except ConnectionError Unit
  openBiRes : Except ConnectionError Unit
  echoSendRes : Except SendError Unit
  echoReadRes : Except RecvError (Option WireMsg)

/-- The `verify` future of `handle_endpoint_verification`: succeeds
exactly when dialing, opening the bi-stream and writing `EndpointEchoReq`
all succeed and the frame read back is an `EndpointEchoResp`; any other
read (including clean end-of-stream) is an `UnexpectedMessage` error. -/
def verify_probe (i : VerifyProbeInput) : Except RpcError Unit :=
  match i.connectRes with
  | Except.error e => Except.error (RpcError.Connection e)
  | Except.ok _ =>
    match i.openBiRes with
    | Except.error e => Except.error (RpcError.Connection e)
    | Except.ok _ =>
      match i.echoSendRes with
      | Except.error e => Except.error (RpcError.Send e)
      | Except.ok _ =>
        match i.echoReadRes with
        | Except.error e => Except.error (RpcError.Recv e)
        | Except.ok (some (WireMsg.EndpointEchoResp _)) => Except.ok ()
        | Except.ok m =>
          Except.error (RpcError.Recv (RecvError.Serialization (SerializationError.unexpected m)))

/-- `handle_endpoint_verification` (connection.rs lines 754–806): run
the probe under the 30-second timeout (`timedOut` is whether the timeout
elapsed first), then — regardless of the probe's outcome — write
`EndpointVerificationResp(verified.is_ok())` on the same send stream.
Returns the message handed to `write_to_stream` and the handler's
result, which is the outcome of that write. -/
def handle_endpoint_verification (timedOut : Bool) (i : VerifyProbeInput)
    (writeRes : Except SendError Unit) : Option WireMsg × Except SendError Unit :=
  let verified : Except RpcError Unit :=
    if timedOut then Except.error RpcError.TimedOutErr else verify_probe i
  let ok : Bool := match verified with
    | Except.ok _ => true
    | Except.error _ => false
  (some (WireMsg.EndpointVerificationResp ok),
   match writeRes with
   | Except.error e => Except.error e
   | Except.ok _ => Except.ok ())

/-- `RecvStream::next` (connection.rs lines 296–307): loop over wire
messages, silently skipping `EndpointPseudoBiStreamResp` frames, until
the first `UserMsg` (returned), clean end-of-stream (`none`), a read
error (propagated), or any other variant (an `UnexpectedMessage`
error). -/
def RecvStream.next : List FrameRead → Except RecvError (Option Bytes)
  | [] => Except.ok none
  | f :: rest =>
    match f with
    | FrameRead.eof => Except.ok none
    | FrameRead.errF e => Except.error e
    | FrameRead.msg w =>
      match w with
      | WireMsg.UserMsg m => Except.ok (some m)
      | WireMsg.EndpointPseudoBiStreamResp _ => RecvStream.next rest
      | other =>
        Except.error (RecvError.Serialization (SerializationError.unexpected (some other)))

theorem handle_error_spec (r : Option SendError) :
    ConnectionHandle.handle_error r = (r, r.isSome) := by
  cases r <;> rfl

/-- C10: `Connection::close` always closes with error code 0; with no
caller-supplied reason the fixed string
"The connection was closed intentionally by qp2p." is the close reason,
and a caller-supplied reason is passed through unchanged. -/
theorem claim_C10_close_code_and_reason :
    (∀ r, (Connection.close r).1 = 0)
    ∧ Connection.close none = (0, "The connection was closed intentionally by qp2p.")
    ∧ (∀ s, Connection.close (some s) = (0, s)) := by
  refine ⟨fun r => ?_, rfl, fun s => rfl⟩
  cases r <;> rfl

/-- C5: in `Connection::send_uni`, when opening the stream and writing
the `UserMsg` frame succeed, a `finish()` failure of shape
`SendError::StreamLost(StreamError::Stopped(_))` is suppressed and the
send returns success, while a `finish()` failure of any other shape is
returned to the caller. -/
theorem claim_C5_finish_stopped_suppressed :
    (∀ code, Connection.send_uni (Except.ok ()) (Except.ok ())
        (Except.error (SendError.StreamLost (StreamError.Stopped code))) = Except.ok ())
    ∧ (∀ e, (∀ code, e ≠ SendError.StreamLost (StreamError.Stopped code)) →
        Connection.send_uni (Except.ok ()) (Except.ok ()) (Except.error e)
          = Except.error e) := by
  constructor
  · intro code
    rfl
  · intro e h
    match e with
    | SendError.ConnectionLost c => rfl
    | SendError.StreamLost (StreamError.Stopped c) => exact absurd rfl (h c)
    | SendError.StreamLost (StreamError.Reset c) => rfl
    | SendError.StreamLost StreamError.UnknownStream => rfl
    | SendError.StreamLost (StreamError.TransportError c) => rfl
    | SendError.Serialization s => rfl

theorem claim_C5_finish_stopped_suppressed_witness :
    Connection.send_uni (Except.ok ()) (Except.ok ())
      (Except.error (SendError.StreamLost (StreamError.Stopped 7))) = Except.ok ()
    ∧ Connection.send_uni (Except.ok ()) (Except.ok ())
      (Except.error (SendError.StreamLost StreamError.UnknownStream))
      = Except.error (SendError.StreamLost StreamError.UnknownStream) :=
  ⟨claim_C5_finish_stopped_suppressed.1 7,
   claim_C5_finish_stopped_suppressed.2
     (SendError.StreamLost StreamError.UnknownStream) (fun code h => by simp at h)⟩

/-- C3: for every `ConnectionHandle`, `send` and `send_with` return the
inner send result unchanged, and `remove()` is invoked on the pool
remover exactly when that result is an error (so never on success). -/
theorem claim_C3_remove_on_send_error :
    ∀ d c attempts,
      ConnectionHandle.send_with d c attempts
        = ((Connection.send_with d c attempts).1,
           (Connection.send_with d c attempts).1.isSome)
      ∧ ConnectionHandle.send d attempts
        = ((Connection.send_with d none attempts).1,
           (Connection.send_with d none attempts).1.isSome) := by
  intro d c attempts
  exact ⟨handle_error_spec _, handle_error_spec _⟩

/-- C1: with a retry policy in effect, an attempt failing with
`SendError::ConnectionLost` is classified permanent and returned after
that attempt with no further ones, an attempt failing with any other
send error is classified transient and the backoff loop continues with
the remaining budget, and `send_with` runs the backoff loop whenever a
policy (per-call or default) is present; with no policy configured
exactly one attempt is made and its result returned as-is. -/
theorem claim_C1_retry_classification :
    (∀ attempts fuel i ce, attempts i = some (SendError.ConnectionLost ce) →
      retryLoop attempts fuel i = (some (SendError.ConnectionLost ce), i + 1))
    ∧ (∀ attempts fuel i e, attempts i = some e →
      (∀ ce, e ≠ SendError.ConnectionLost ce) →
      retryLoop attempts (fuel + 1) i = retryLoop attempts fuel (i + 1))
    ∧ (∀ d c fuel attempts, c.orElse (fun _ => d) = some fuel →
      Connection.send_with d c attempts = retryLoop attempts fuel 0)
    ∧ (∀ attempts, Connection.send_with none none attempts = (attempts 0, 1)) := by
  refine ⟨?_, ?_, ?_, ?_⟩
  · intro attempts fuel i ce h
    cases fuel <;> simp [retryLoop, h, classify_send_error]
  · intro attempts fuel i e h hne
    match e with
    | SendError.ConnectionLost ce => exact absurd rfl (hne ce)
    | SendError.StreamLost s => simp [retryLoop, h, classify_send_error]
    | SendError.Serialization s => simp [retryLoop, h, classify_send_error]
  · intro d c fuel attempts h
    unfold Connection.send_with
    rw [h]
  · intro attempts
    rfl

theorem claim_C1_retry_classification_witness :
    retryLoop (fun _ => some (SendError.ConnectionLost ConnectionError.TimedOut)) 5 0
      = (some (SendError.ConnectionLost ConnectionError.TimedOut), 1)
    ∧ retryLoop (fun _ => some (SendError.StreamLost StreamError.UnknownStream)) 3 0
      = retryLoop (fun _ => some (SendError.StreamLost StreamError.UnknownStream)) 2 1
    ∧ Connection.send_with (some 4) none (fun _ => none) = retryLoop (fun _ => none) 4 0 :=
  ⟨claim_C1_retry_classification.1 _ 5 0 ConnectionError.TimedOut rfl,
   claim_C1_retry_classification.2.1 _ 2 0 _ rfl (fun ce h => by simp at h),
   claim_C1_retry_classification.2.2.1 (some 4) none 4 _ rfl⟩

theorem lookupToken_insertToken (tok : Bytes) (slot : Nat) (t : PendingTable) :
    lookupToken tok (insertToken tok slot t) = some slot := by
  simp [lookupToken, insertToken, List.find?_cons]

theorem lookupToken_removeToken (tok : Bytes) (t : PendingTable) :
    lookupToken tok (removeToken tok t) = none := by
  induction t with
  | nil => rfl
  | cons p rest ih =>
    by_cases h : p.1 = tok
    · simp only [removeToken, List.filter_cons, h]
      simpa [removeToken] using ih
    · simp only [removeToken, lookupToken, List.filter_cons, List.find?_cons, h] at ih ⊢
      simp [h]

/-- C4: `handle_endpoint_verification` replies
`EndpointVerificationResp(true)` exactly when the reverse probe (dial
the address, open a bi-stream, send `EndpointEchoReq`, receive an
`EndpointEchoResp`) completes successfully before the 30-second timeout
elapses, replies `EndpointVerificationResp(false)` otherwise, and the
write of the reply is attempted whatever the probe's outcome. -/
theorem claim_C4_verification_reply :
    ∀ timedOut i writeRes,
      ((handle_endpoint_verification timedOut i writeRes).1
          = some (WireMsg.EndpointVerificationResp true)
        ↔ (timedOut = false ∧ verify_probe i = Except.ok ()))
      ∧ (∃ b, (handle_endpoint_verification timedOut i writeRes).1
          = some (WireMsg.EndpointVerificationResp b))
      ∧ (verify_probe i = Except.ok ()
        ↔ (i.connectRes = Except.ok () ∧ i.openBiRes = Except.ok ()
           ∧ i.echoSendRes = Except.ok ()
           ∧ ∃ a, i.echoReadRes = Except.ok (some (WireMsg.EndpointEchoResp a)))) := by
  intro timedOut i writeRes
  refine ⟨?_, ?_, ?_⟩
  · unfold handle_endpoint_verification
    cases timedOut
    · cases hv : verify_probe i with
      | ok u => cases u; simp [hv]
      | error e => simp [hv]
    · simp
  · unfold handle_endpoint_verification
    exact ⟨_, rfl⟩
  · obtain ⟨cr, obr, esr, err⟩ := i
    unfold verify_probe
    rcases cr with e | u
    · simp
    · cases u
      rcases obr with e | u
      · simp
      · cases u
        rcases esr with e | u
        · simp
        · cases u
          rcases err with e | m
          · simp
          · rcases m with _ | w
            · simp
            · cases w <;> simp

/-- C6: on an inbound uni-stream opening with
`EndpointPseudoBiStreamResp(tok)`: when `tok` is pending, the
recv-stream is delivered to the waiting slot and the entry is removed
from the table; when `tok` is not pending, the table is untouched and
nothing is delivered; in either case nothing is enqueued to the
application queue. -/
theorem claim_C6_pseudo_resp_table (tok : Bytes) (t : PendingTable) :
    (∀ slot, lookupToken tok t = some slot →
      consume_pseudo_resp_messages tok t = (removeToken tok t, some slot)
      ∧ lookupToken tok (consume_pseudo_resp_messages tok t).1 = none)
    ∧ (lookupToken tok t = none →
      consume_pseudo_resp_messages tok t = (t, none))
    ∧ (∀ rest openR sendR,
      (handle_uni_stream ⟨Except.ok (some (WireMsg.EndpointPseudoBiStreamResp tok)),
        rest, openR, sendR⟩ t).1 = []) := by
  refine ⟨?_, ?_, ?_⟩
  · intro slot h
    constructor
    · simp [consume_pseudo_resp_messages, h]
    · simp [consume_pseudo_resp_messages, h, lookupToken_removeToken]
  · intro h
    simp [consume_pseudo_resp_messages, h]
  · intro rest openR sendR
    rfl

theorem claim_C6_pseudo_resp_table_witness :
    (consume_pseudo_resp_messages [1] [([1], 5), ([2], 6)]
      = (removeToken [1] [([1], 5), ([2], 6)], some 5)
    ∧ lookupToken [1] (consume_pseudo_resp_messages [1] [([1], 5), ([2], 6)]).1 = none)
    ∧ consume_pseudo_resp_messages [3] [([1], 5)] = ([([1], 5)], none) :=
  ⟨(claim_C6_pseudo_resp_table [1] [([1], 5), ([2], 6)]).1 5 (by decide),
   (claim_C6_pseudo_resp_table [3] [([1], 5)]).2.1 (by decide)⟩

/-- C9: `RecvStream::next` silently skips any number of
`EndpointPseudoBiStreamResp` frames, returns the payload of the first
`UserMsg` frame, returns `none` on clean end-of-stream, and returns an
`UnexpectedMessage` error on any other wire-message variant read before
a `UserMsg`. -/
theorem claim_C9_recv_next_skips_pseudo_resp :
    (∀ (toks : List Bytes) (m : Bytes) rest,
      RecvStream.next
        ((toks.map fun tk => FrameRead.msg (WireMsg.EndpointPseudoBiStreamResp tk))
          ++ FrameRead.msg (WireMsg.UserMsg m) :: rest) = Except.ok (some m))
    ∧ (∀ (toks : List Bytes),
      RecvStream.next
        (toks.map fun tk => FrameRead.msg (WireMsg.EndpointPseudoBiStreamResp tk))
        = Except.ok none)
    ∧ (∀ (toks : List Bytes) rest,
      RecvStream.next
        ((toks.map fun tk => FrameRead.msg (WireMsg.EndpointPseudoBiStreamResp tk))
          ++ FrameRead.eof :: rest) = Except.ok none)
    ∧ (∀ (toks : List Bytes) (w : WireMsg) rest, (∀ b, w ≠ WireMsg.UserMsg b) →
      (∀ tk, w ≠ WireMsg.EndpointPseudoBiStreamResp tk) →
      RecvStream.next
        ((toks.map fun tk => FrameRead.msg (WireMsg.EndpointPseudoBiStreamResp tk))
          ++ FrameRead.msg w :: rest)
        = Except.error (RecvError.Serialization
            (SerializationError.UnexpectedMessage (some w)))) := by
  refine ⟨?_, ?_, ?_, ?_⟩
  · intro toks m rest
    induction toks with
    | nil => simp [RecvStream.next]
    | cons tk tks ih => simpa [RecvStream.next] using ih
  · intro toks
    induction toks with
    | nil => rfl
    | cons tk tks ih => simpa [RecvStream.next] using ih
  · intro toks rest
    induction toks with
    | nil => simp [RecvStream.next]
    | cons tk tks ih => simpa [RecvStream.next] using ih
  · intro toks w rest h1 h2
    induction toks with
    | nil =>
      cases w with
      | UserMsg b => exact absurd rfl (h1 b)
      | EndpointPseudoBiStreamResp tk => exact absurd rfl (h2 tk)
      | EndpointEchoReq => simp [RecvStream.next, SerializationError.unexpected]
      | EndpointEchoResp a => simp [RecvStream.next, SerializationError.unexpected]
      | EndpointVerificationReq a => simp [RecvStream.next, SerializationError.unexpected]
      | EndpointVerificationResp b => simp [RecvStream.next, SerializationError.unexpected]
      | EndpointPseudoBiStreamReq tk => simp [RecvStream.next, SerializationError.unexpected]
    | cons tk tks ih => simpa [RecvStream.next] using ih

theorem claim_C9_recv_next_skips_pseudo_resp_witness :
    RecvStream.next [FrameRead.msg (WireMsg.EndpointPseudoBiStreamResp [9]),
        FrameRead.msg WireMsg.EndpointEchoReq]
      = Except.error (RecvError.Serialization
          (SerializationError.UnexpectedMessage (some WireMsg.EndpointEchoReq))) := by
  have h := claim_C9_recv_next_skips_pseudo_resp.2.2.2 [[9]] WireMsg.EndpointEchoReq []
    (fun b hb => by simp at hb) (fun tk hk => by simp at hk)
  simpa using h

/-- C7: on an inbound uni-stream opening with
`EndpointPseudoBiStreamReq(tok)`, when the reverse open and write
succeed the handler writes `EndpointPseudoBiStreamResp(tok)` on the
reverse uni-stream, drops every non-`UserMsg` frame it reads, and on
the first `UserMsg(m)` enqueues exactly `(m, recv, Some(reverse_send))`
and stops handling the stream (the remaining frames are untouched). -/
theorem claim_C7_pseudo_req_handshake :
    ∀ (tok : Bytes) (junk : List FrameRead) (m : Bytes) (rest : List FrameRead),
      (∀ f ∈ junk, ∃ w, f = FrameRead.msg w ∧ ∀ b, w ≠ WireMsg.UserMsg b) →
      consume_pseudo_req_messages tok (Except.ok ()) (Except.ok ())
          (junk ++ FrameRead.msg (WireMsg.UserMsg m) :: rest)
        = ⟨some (WireMsg.EndpointPseudoBiStreamResp tok),
           [QueueEntry.msgE m true], none⟩ := by
  intro tok junk m rest h
  have hloop : ∀ (junk2 : List FrameRead),
      (∀ f ∈ junk2, ∃ w, f = FrameRead.msg w ∧ ∀ b, w ≠ WireMsg.UserMsg b) →
      pseudo_req_loop (junk2 ++ FrameRead.msg (WireMsg.UserMsg m) :: rest)
        = [QueueEntry.msgE m true] := by
    intro junk2
    induction junk2 with
    | nil => intro _; simp [pseudo_req_loop]
    | cons f fs ih =>
      intro hj
      obtain ⟨w, hfw, hw⟩ := hj f (List.mem_cons_self f fs)
      subst hfw
      have tail := ih (fun g hg => hj g (List.mem_cons_of_mem _ hg))
      cases w with
      | UserMsg b => exact absurd rfl (hw b)
      | EndpointEchoReq => simpa [pseudo_req_loop] using tail
      | EndpointEchoResp a => simpa [pseudo_req_loop] using tail
      | EndpointVerificationReq a => simpa [pseudo_req_loop] using tail
      | EndpointVerificationResp b => simpa [pseudo_req_loop] using tail
      | EndpointPseudoBiStreamReq tk => simpa [pseudo_req_loop] using tail
      | EndpointPseudoBiStreamResp tk => simpa [pseudo_req_loop] using tail
  simp [consume_pseudo_req_messages, hloop junk h]

theorem claim_C7_pseudo_req_handshake_witness :
    consume_pseudo_req_messages [2] (Except.ok ()) (Except.ok ())
        [FrameRead.msg WireMsg.EndpointEchoReq, FrameRead.msg (WireMsg.UserMsg [7])]
      = ⟨some (WireMsg.EndpointPseudoBiStreamResp [2]),
         [QueueEntry.msgE [7] true], none⟩ := by
  have h := claim_C7_pseudo_req_handshake [2] [FrameRead.msg WireMsg.EndpointEchoReq] [7] []
    (fun f hf => by
      simp only [List.mem_singleton] at hf
      exact ⟨WireMsg.EndpointEchoReq, hf, fun b hb => by simp at hb⟩)
  simpa using h

/-- C8: on an inbound uni-stream, a decode error of the first frame is
enqueued as a single error item, and a first frame that is neither
`UserMsg` nor `EndpointPseudoBiStreamReq` nor
`EndpointPseudoBiStreamResp` is enqueued as a single
`SerializationError::UnexpectedMessage` error; in both cases the
acceptor goes on to process the remaining streams unchanged. -/
theorem claim_C8_uni_acceptor_error_items :
    ∀ (e : RecvError) (m : WireMsg) (fr : List FrameRead)
      (o : Except ConnectionError Unit) (sr : Except SendError Unit)
      (rest : List UniStreamInput) (t : PendingTable),
      (listen_on_uni_streams (⟨Except.error e, fr, o, sr⟩ :: rest) t
        = (QueueEntry.errE e :: (listen_on_uni_streams rest t).1,
           (listen_on_uni_streams rest t).2))
      ∧ ((∀ b, m ≠ WireMsg.UserMsg b) →
         (∀ tk, m ≠ WireMsg.EndpointPseudoBiStreamReq tk) →
         (∀ tk, m ≠ WireMsg.EndpointPseudoBiStreamResp tk) →
         listen_on_uni_streams (⟨Except.ok (some m), fr, o, sr⟩ :: rest) t
          = (QueueEntry.errE (RecvError.Serialization
               (SerializationError.UnexpectedMessage (some m)))
               :: (listen_on_uni_streams rest t).1,
             (listen_on_uni_streams rest t).2)) := by
  intro e m fr o sr rest t
  constructor
  · simp [listen_on_uni_streams, handle_uni_stream]
  · intro h1 h2 h3
    cases m with
    | UserMsg b => exact absurd rfl (h1 b)
    | EndpointPseudoBiStreamReq tk => exact absurd rfl (h2 tk)
    | EndpointPseudoBiStreamResp tk => exact absurd rfl (h3 tk)
    | EndpointEchoReq =>
      simp [listen_on_uni_streams, handle_uni_stream, SerializationError.unexpected]
    | EndpointEchoResp a =>
      simp [listen_on_uni_streams, handle_uni_stream, SerializationError.unexpected]
    | EndpointVerificationReq a =>
      simp [listen_on_uni_streams, handle_uni_stream, SerializationError.unexpected]
    | EndpointVerificationResp b =>
      simp [listen_on_uni_streams, handle_uni_stream, SerializationError.unexpected]

theorem claim_C8_uni_acceptor_error_items_witness :
    listen_on_uni_streams
        [⟨Except.error (RecvError.StreamLost StreamError.UnknownStream), [],
           Except.ok (), Except.ok ()⟩] []
      = ([QueueEntry.errE (RecvError.StreamLost StreamError.UnknownStream)], [])
    ∧ listen_on_uni_streams
        [⟨Except.ok (some WireMsg.EndpointEchoReq), [], Except.ok (), Except.ok ()⟩] []
      = ([QueueEntry.errE (RecvError.Serialization
           (SerializationError.UnexpectedMessage (some WireMsg.EndpointEchoReq)))], []) := by
  constructor
  · have h := (claim_C8_uni_acceptor_error_items
      (RecvError.StreamLost StreamError.UnknownStream) WireMsg.EndpointEchoReq []
      (Except.ok ()) (Except.ok ()) [] []).1
    simpa using h
  · have h := (claim_C8_uni_acceptor_error_items
      (RecvError.StreamLost StreamError.UnknownStream) WireMsg.EndpointEchoReq []
      (Except.ok ()) (Except.ok ()) [] []).2
      (fun b hb => by simp at hb) (fun tk hk => by simp at hk) (fun tk hk => by simp at hk)
    simpa using h

/-- C2 (as stated) is false: when the initial
`EndpointPseudoBiStreamReq` write fails, `open_pseudo_bi` resolves with
`ConnectionError::Stopped` while the token is still in the pending
table. -/
theorem claim_C2_counterexample_token_left_on_send_failure :
    (open_pseudo_bi [0] 0 []
        (Except.error (SendError.StreamLost StreamError.UnknownStream))
        PseudoResolution.respDelivered).1 = Except.error ConnectionError.Stopped
    ∧ lookupToken [0] (open_pseudo_bi [0] 0 []
        (Except.error (SendError.StreamLost StreamError.UnknownStream))
        PseudoResolution.respDelivered).2 = some 0 := by
  exact ⟨rfl, rfl⟩

/-- C2 (amended): the token is in the pending table after
`open_pseudo_bi` inserts it; when the future resolves with success the
token is absent; when it resolves with an error because the slot was
closed the token is absent; but when it resolves with an error because
the initial `EndpointPseudoBiStreamReq` write failed, the token remains
in the table (it is only cleared by a matching response or by the
table's drop at connection termination). -/
theorem claim_C2_amended_pending_token_lifecycle :
    ∀ (tok : Bytes) (slot : Nat) (t : PendingTable)
      (sendRes : Except SendError Unit) (res : PseudoResolution),
      lookupToken tok (insertToken tok slot t) = some slot
      ∧ ((open_pseudo_bi tok slot t sendRes res).1 = Except.ok () →
          lookupToken tok (open_pseudo_bi tok slot t sendRes res).2 = none)
      ∧ (∀ e, sendRes = Except.error e →
          (open_pseudo_bi tok slot t sendRes res).1 = Except.error ConnectionError.Stopped
          ∧ lookupToken tok (open_pseudo_bi tok slot t sendRes res).2 = some slot)
      ∧ (sendRes = Except.ok () → res = PseudoResolution.slotClosed →
          (open_pseudo_bi tok slot t sendRes res).1 = Except.error ConnectionError.Stopped
          ∧ lookupToken tok (open_pseudo_bi tok slot t sendRes res).2 = none) := by
  intro tok slot t sendRes res
  refine ⟨lookupToken_insertToken tok slot t, ?_, ?_, ?_⟩
  · intro h
    rcases sendRes with e | u
    · simp [open_pseudo_bi] at h
    · cases u
      cases res with
      | respDelivered =>
        simp [open_pseudo_bi, consume_pseudo_resp_messages,
          lookupToken_insertToken, lookupToken_removeToken]
      | slotClosed =>
        simp [open_pseudo_bi, lookupToken_removeToken]
  · intro e he
    subst he
    exact ⟨rfl, lookupToken_insertToken tok slot t⟩
  · intro hs hr
    subst hs
    subst hr
    exact ⟨rfl, by simp [open_pseudo_bi, lookupToken_removeToken]⟩

theorem claim_C2_amended_pending_token_lifecycle_witness :
    lookupToken [4] (insertToken [4] 1 []) = some 1
    ∧ lookupToken [4]
        (open_pseudo_bi [4] 1 [] (Except.ok ()) PseudoResolution.respDelivered).2 = none
    ∧ lookupToken [4]
        (open_pseudo_bi [4] 1 []
          (Except.error (SendError.StreamLost StreamError.UnknownStream))
          PseudoResolution.respDelivered).2 = some 1 :=
  ⟨(claim_C2_amended_pending_token_lifecycle [4] 1 [] (Except.ok ())
      PseudoResolution.respDelivered).1,
   (claim_C2_amended_pending_token_lifecycle [4] 1 [] (Except.ok ())
      PseudoResolution.respDelivered).2.1 rfl,
   ((claim_C2_amended_pending_token_lifecycle [4] 1 []
      (Except.error (SendError.StreamLost StreamError.UnknownStream))
      PseudoResolution.respDelivered).2.2.1
      (SendError.StreamLost StreamError.UnknownStream) rfl).2⟩
